import Mathlib

/-!
Verification of `src/python/twitter/aurora/executor/common/task_info.py`.

The file embeds the three components of that module:
  * `assigned_task_from_mesos_task` (the Assignment Decoder),
  * `mesos_task_instance_from_assigned_task` (the Task Configuration Resolver),
  * `resolve_ports` (the Port Binder),
and proves the behavioural properties claimed of them.

External collaborators that are not part of the source file
(thrift deserialization, `resolve_thermos_config`, `json.loads`,
pystachio decoding, `task_instance_from_job`, `PortResolver.resolve`)
are either taken as explicit parameters of the embedded functions or
modelled from the specification, as noted on each definition.
-/

set_option autoImplicit false

namespace TaskInfo

/-! ### Port values and python-dict model -/

/-- Value of one portmap entry: either a concrete port number
(a non-negative integer, per the data model) or an alias string that
names another port. -/
inductive PortValue where
  | num (n : Nat)
  | str (s : String)
deriving Repr, DecidableEq, Inhabited

/-- True on concrete numbers; mirrors the isinstance int test of the source. -/
def PortValue.isNum : PortValue → Bool
  | .num _ => true
  | .str _ => false

/-- Rendering used in the warning log message. -/
def PortValue.render : PortValue → String
  | .num n => toString n
  | .str s => s

/-- A python dict of ports, modelled as an insertion-ordered association
list.  Real dicts have no duplicate keys; statements that need this
assume key-uniqueness explicitly. -/
abbrev Dict := List (String × PortValue)

/-- Keys of a dict are pairwise distinct. -/
def keysNodup (d : Dict) : Prop := (d.map Prod.fst).Nodup

instance (d : Dict) : Decidable (keysNodup d) := by
  unfold keysNodup; infer_instance

/-- Python dict lookup (first entry with the key, which is the only one
when keys are unique). -/
def dictFind (d : Dict) (k : String) : Option PortValue :=
  (d.find? (fun kv => kv.1 == k)).map Prod.snd

/-- Python single-key dict assignment: overwrite the entry in place if
the key is present (keeping its position), else append at the end. -/
def dictSet (d : Dict) (k : String) (v : PortValue) : Dict :=
  if d.any (fun kv => kv.1 == k)
  then d.map (fun kv => if kv.1 == k then (k, v) else kv)
  else d ++ [(k, v)]

/-- Python dict.update: fold the entries of the right map into the left map,
in order. -/
def dictUpdate (d u : Dict) : Dict :=
  u.foldl (fun acc kv => dictSet acc kv.1 kv.2) d

/-! ### Refs (pystachio) -/

/-- Modelled from the spec: a pystachio Ref is a reference to a named
placeholder, identified by its normalized dotted address; two refs are
equal exactly when their addresses are. -/
structure Ref where
  components : List String
deriving Repr, DecidableEq, Inhabited

/-- Split a character list at every dot. -/
def splitDots : List Char → List (List Char)
  | [] => [[]]
  | c :: rest =>
    match splitDots rest with
    | [] => [[]]
    | cur :: done =>
      if c = '.' then [] :: cur :: done else (c :: cur) :: done

/-- Build a ref from a dotted address such as thermos.task_id. -/
def Ref.from_address (address : String) : Ref :=
  ⟨(splitDots address.toList).map (fun cs => String.mk cs)⟩

/-- Modelled from the spec: r2 is a subscope of r1 when r2 is nested
strictly under the path prefix of r1 (pystachio Ref.subscope is truthy
exactly in that case). -/
def Ref.subscope (r1 r2 : Ref) : Bool :=
  r1.components.isPrefixOf r2.components
    && decide (r1.components.length < r2.components.length)

/-! ### JSON values -/

/-- Parsed JSON structure, as returned by json.loads. -/
inductive Json where
  | obj (fields : List (String × Json))
  | arr (elems : List Json)
  | str (s : String)
  | num (n : Int)
  | bool (b : Bool)
  | null

/-- Whether a pattern occurs as a contiguous sublist (python substring
membership). -/
def subOccurs (pat : List Char) : List Char → Bool
  | [] => pat.isEmpty
  | c :: rest => pat.isPrefixOf (c :: rest) || subOccurs pat rest

/-- Whether a JSON value is the string "instance". -/
def Json.isStrInstance : Json → Bool
  | .str s => s == "instance"
  | _ => false

/-- Python membership test of the key instance in json_blob: key membership on
a dict, element membership on a list, substring test on a string; on any
other top-level value python raises TypeError, modelled as none. -/
def Json.containsInstance : Json → Option Bool
  | .obj fields => some (fields.any (fun kv => kv.1 == "instance"))
  | .arr elems => some (elems.any Json.isStrInstance)
  | .str s => some (subOccurs "instance".toList s.toList)
  | _ => none

/-! ### Task records and collaborators -/

/-- Opaque embedded task template (the thrift TaskConfig carried inside
an AssignedTask); only ever consumed through resolve_thermos_config. -/
structure TaskBlob where
  raw : String
deriving Repr, DecidableEq, Inhabited

/-- Wire-decoded assignment record. -/
structure AssignedTask where
  task : TaskBlob
  instanceId : Nat
deriving Repr, DecidableEq, Inhabited

/-- Result of decoding a MesosTaskInstance pystachio struct; the only
attributes the embedded code reads are has_announce and the announced
portmap, so the record keeps exactly those (some d means has_announce
with portmap d, none means no announce section). -/
structure MesosTaskInstance where
  announce_portmap : Option Dict
deriving Repr, DecidableEq, Inhabited

/-- Result of decoding a MesosJob pystachio struct; opaque to this
module, it is only handed on to task_instance_from_job. -/
structure MesosJob where
  raw : String
deriving Repr, DecidableEq, Inhabited

/-- The external collaborators of the resolver, injected as data:
template extraction, JSON parsing, the two pystachio schema decoders and
the template-instantiation engine. -/
structure Collab where
  resolve_thermos_config : TaskBlob → Option String
  json_loads : String → Option Json
  mti_json_loads : String → MesosTaskInstance
  job_json_loads : String → MesosJob
  task_instance_from_job : MesosJob → Nat → MesosTaskInstance × List Ref

/-- Failure modes of the resolver (all raised as ValueError in the
source; the spec names them MissingConfigError, MalformedConfigError and
UnboundReferenceError).  unboundRefs carries the refs printed in the
error message.  typeError models the uncaught python TypeError raised by
the membership test on a non-container JSON top-level value. -/
inductive ResolveError where
  | missingConfig
  | malformedConfig
  | unboundRefs (reported : List Ref)
  | typeError
deriving Repr, DecidableEq

/-- Whether an unresolved ref is whitelisted, in the test order of the source: exact thermos.task_id, proper subscope of thermos.ports, exact
thermos.user. -/
def refWhitelisted (ref : Ref) : Bool :=
  decide (ref = Ref.from_address "thermos.task_id")
    || Ref.subscope (Ref.from_address "thermos.ports") ref
    || decide (ref = Ref.from_address "thermos.user")

/-- The for-loop over the unresolved refs: stop at the first
non-whitelisted ref and raise, with the message naming all of allRefs
(the source joins the whole refs collection into the message). -/
def checkRefs (allRefs : List Ref) : List Ref → Except ResolveError Unit
  | [] => .ok ()
  | ref :: rest =>
    if refWhitelisted ref then checkRefs allRefs rest
    else .error (.unboundRefs allRefs)

/-- Embedding of mesos_task_instance_from_assigned_task. -/
def mesos_task_instance_from_assigned_task (c : Collab)
    (assigned_task : AssignedTask) : Except ResolveError MesosTaskInstance :=
  match c.resolve_thermos_config assigned_task.task with
  | none => .error .missingConfig
  | some thermos_task =>
    if thermos_task = "" then .error .missingConfig
    else
      match c.json_loads thermos_task with
      | none => .error .malformedConfig
      | some json_blob =>
        match json_blob.containsInstance with
        | none => .error .typeError
        | some true => .ok (c.mti_json_loads thermos_task)
        | some false =>
          let mr := c.task_instance_from_job
            (c.job_json_loads thermos_task) assigned_task.instanceId
          match checkRefs mr.2 mr.2 with
          | .ok _ => .ok mr.1
          | .error e => .error e

/-! ### Assignment decoder -/

/-- Outcome of the external thrift deserializer, which signals a
truncated payload (premature end-of-input) as EOFError and malformed or
schema-violating bytes as TException. -/
inductive ThriftResult where
  | ok (t : AssignedTask)
  | eofError
  | texception
deriving Repr, DecidableEq, Inhabited

/-- Failure of the decoder (the source raises ValueError; the spec names
it DecodeError). -/
inductive DecodeError where
  | couldNotDeserialize
deriving Repr, DecidableEq

/-- Embedding of assigned_task_from_mesos_task, parameterized by the
external thrift deserializer applied to the launchTask payload bytes. -/
def assigned_task_from_mesos_task
    (thrift_deserialize : List Nat → ThriftResult)
    (data : List Nat) : Except DecodeError AssignedTask :=
  match thrift_deserialize data with
  | .ok t => .ok t
  | .eofError => .error .couldNotDeserialize
  | .texception => .error .couldNotDeserialize

/-! ### Port binder -/

namespace PortResolver

/-- Modelled from the spec: one step chain-chasing of a single value
through the merged mapping; a concrete number is final, an alias that
names an entry is substituted, a dangling alias stays a string, and the
fuel bound makes a cyclic chain run out and stay a string. -/
def chase (m : Dict) : Nat → PortValue → PortValue
  | _, .num n => .num n
  | 0, .str s => .str s
  | fuel + 1, .str s =>
    match dictFind m s with
    | none => .str s
    | some v => chase m fuel v

/-- Modelled from the spec: PortResolver.resolve (the port-alias
resolution collaborator, whose source is outside src/) substitutes alias
entries as far as possible, leaving unresolved entries as strings and
never failing. -/
def resolve (m : Dict) : Dict :=
  m.map (fun kv => (kv.1, chase m m.length kv.2))

end PortResolver

/-- The base mapping: the self-declared announcement portmap of the task, or
empty when the task has no announce section. -/
def taskPortmapBase (mesos_task : MesosTaskInstance) : Dict :=
  match mesos_task.announce_portmap with
  | some d => d
  | none => []

/-- The base mapping overlaid with the portmap of the scheduler
(task_portmap.update(portmap)). -/
def mergedPortmap (mesos_task : MesosTaskInstance) (portmap : Dict) : Dict :=
  dictUpdate (taskPortmapBase mesos_task) portmap

/-- The merged mapping after alias resolution. -/
def resolvedPortmap (mesos_task : MesosTaskInstance) (portmap : Dict) : Dict :=
  PortResolver.resolve (mergedPortmap mesos_task portmap)

/-- The warning-logging loop over the resolved mapping: one message per
entry whose value is not an int. -/
def logUnmapped : Dict → List String
  | [] => []
  | (name, port) :: rest =>
    (if port.isNum then []
     else ["Task has unmapped port: " ++ name ++ " => " ++ port.render])
      ++ logUnmapped rest

/-- Embedding of resolve_ports; the first component is the returned
dict, the second the sequence of warnings logged. -/
def resolve_ports (mesos_task : MesosTaskInstance) (portmap : Dict) :
    Dict × List String :=
  let task_portmap := resolvedPortmap mesos_task portmap
  (task_portmap.filter (fun kv => kv.2.isNum), logUnmapped task_portmap)

/-! ### Heap model of the port binder, for the frame property -/

/-- Micro-heap of live python dict objects: the address of a dict is its
index, allocation appends a fresh cell. -/
abbrev Heap := List Dict

/-- Allocate a fresh dict object, returning the grown heap and the new
address. -/
def halloc (h : Heap) (d : Dict) : Heap × Nat :=
  (h ++ [d], h.length)

/-- Read the dict object at an address. -/
def hget (h : Heap) (a : Nat) : Dict :=
  h.getD a []

/-- Overwrite the dict object at an address. -/
def hset (h : Heap) (a : Nat) (d : Dict) : Heap :=
  h.set a d

/-- Embedding of resolve_ports with python object identity made
explicit.  The portmap argument of the caller is an address into the
heap; pystachio announce().portmap().get() materializes a fresh dict
object (a new allocation, since pystachio structs are immutable and get
copies out plain data), the in-place task_portmap.update writes only
that fresh object, and PortResolver.resolve returns yet another fresh
object, of which the final dict comprehension is a pure read. -/
def resolve_ports_heap (h : Heap) (mesos_task : MesosTaskInstance)
    (portmapAddr : Nat) : Heap × Dict :=
  let al := halloc h (taskPortmapBase mesos_task)
  let h1 := hset al.1 al.2 (dictUpdate (hget al.1 al.2) (hget al.1 portmapAddr))
  let al2 := halloc h1 (PortResolver.resolve (hget h1 al.2))
  (al2.1, (hget al2.1 al2.2).filter (fun kv => kv.2.isNum))

/-! ### Concrete sample scenarios -/

/-- A sample assigned task used by the concrete scenarios. -/
def sampleTask : AssignedTask := ⟨⟨"blob"⟩, 0⟩

/-- Collaborator assembly for a JobTemplate blob whose instantiation
leaves exactly the three whitelisted refs of the spec example
unresolved. -/
def goodRefsCollab : Collab where
  resolve_thermos_config := fun _ => some "jobcfg"
  json_loads := fun _ => some (Json.obj [("task", Json.null)])
  mti_json_loads := fun _ => ⟨none⟩
  job_json_loads := fun _ => ⟨"job"⟩
  task_instance_from_job := fun _ _ =>
    (⟨some [("http", .num 80)]⟩,
     [Ref.from_address "thermos.task_id",
      Ref.from_address "thermos.ports.http",
      Ref.from_address "thermos.user"])

/-- Collaborator assembly for a JobTemplate blob whose instantiation
leaves a whitelisted ref and the non-whitelisted foo.bar unresolved. -/
def badRefsCollab : Collab where
  resolve_thermos_config := fun _ => some "jobcfg"
  json_loads := fun _ => some (Json.obj [("task", Json.null)])
  mti_json_loads := fun _ => ⟨none⟩
  job_json_loads := fun _ => ⟨"job"⟩
  task_instance_from_job := fun _ _ =>
    (⟨none⟩,
     [Ref.from_address "thermos.task_id",
      Ref.from_address "foo.bar"])

/-- Collaborator assembly whose parsed blob carries an instance key. -/
def instanceCollab : Collab where
  resolve_thermos_config := fun _ => some "instcfg"
  json_loads := fun _ => some (Json.obj [("instance", Json.num 0)])
  mti_json_loads := fun _ => ⟨some [("http", .num 80)]⟩
  job_json_loads := fun _ => ⟨"job"⟩
  task_instance_from_job := fun _ _ => (⟨none⟩, [Ref.from_address "foo.bar"])

/-- Collaborator assembly whose template extraction yields nothing. -/
def missingCollab : Collab where
  resolve_thermos_config := fun _ => none
  json_loads := fun _ => some Json.null
  mti_json_loads := fun _ => ⟨none⟩
  job_json_loads := fun _ => ⟨"job"⟩
  task_instance_from_job := fun _ _ => (⟨none⟩, [])

/-- Collaborator assembly whose extracted blob does not parse as
JSON. -/
def malformedCollab : Collab where
  resolve_thermos_config := fun _ => some "not json"
  json_loads := fun _ => none
  mti_json_loads := fun _ => ⟨none⟩
  job_json_loads := fun _ => ⟨"job"⟩
  task_instance_from_job := fun _ _ => (⟨none⟩, [])

/-- Sample external thrift deserializer: an empty payload is truncated,
the single byte 1 is malformed, anything else decodes to sampleTask. -/
def sampleThrift : List Nat → ThriftResult
  | [] => .eofError
  | [1] => .texception
  | _ => .ok sampleTask

/-! ### Lemmas about the dict model -/

theorem find?_map_overwrite (d : Dict) (k : String) (v : PortValue)
    (h : d.any (fun kv => kv.1 == k) = true) :
    (d.map (fun kv => if kv.1 == k then (k, v) else kv)).find?
      (fun kv => kv.1 == k) = some (k, v) := by
  induction d with
  | nil => simp at h
  | cons kv rest ih =>
    rw [List.map_cons]
    by_cases hk : (kv.1 == k) = true
    · rw [if_pos hk]
      exact List.find?_cons_of_pos _ (beq_self_eq_true k)
    · have hk' : (kv.1 == k) = false := Bool.eq_false_iff.mpr hk
      rw [List.any_cons, hk', Bool.false_or] at h
      rw [if_neg hk, List.find?_cons_of_neg (p := fun x : String × PortValue => x.1 == k) _ hk]
      exact ih h

theorem find?_append_new (d : Dict) (k : String) (v : PortValue)
    (h : d.any (fun kv => kv.1 == k) = false) :
    ((d ++ [(k, v)]).find? (fun kv => kv.1 == k)) = some (k, v) := by
  induction d with
  | nil =>
    rw [List.nil_append]
    exact List.find?_cons_of_pos _ (beq_self_eq_true k)
  | cons kv rest ih =>
    rw [List.any_cons, Bool.or_eq_false_iff] at h
    rw [List.cons_append,
      List.find?_cons_of_neg (p := fun x : String × PortValue => x.1 == k) _
        (Bool.eq_false_iff.mp h.1)]
    exact ih h.2

theorem dictFind_dictSet_self (d : Dict) (k : String) (v : PortValue) :
    dictFind (dictSet d k v) k = some v := by
  unfold dictSet dictFind
  by_cases h : d.any (fun kv => kv.1 == k) = true
  · rw [if_pos h, find?_map_overwrite d k v h]
    rfl
  · rw [if_neg h, find?_append_new d k v (Bool.eq_false_iff.mpr h)]
    rfl

theorem find?_map_overwrite_ne (d : Dict) (k kq : String) (v : PortValue)
    (hne : kq ≠ k) :
    (d.map (fun kv => if kv.1 == k then (k, v) else kv)).find?
      (fun kv => kv.1 == kq) = d.find? (fun kv => kv.1 == kq) := by
  have hknq : ((k : String) == kq) = false :=
    beq_eq_false_iff_ne.mpr (Ne.symm hne)
  induction d with
  | nil => rfl
  | cons kv rest ih =>
    rw [List.map_cons]
    by_cases hk : (kv.1 == k) = true
    · have hkk : kv.1 = k := eq_of_beq hk
      have hhead : ¬ (((k, v) : String × PortValue).1 == kq) = true := by
        rw [Bool.eq_false_iff] at hknq; exact hknq
      have horig : ¬ (kv.1 == kq) = true := by
        rw [hkk, Bool.eq_false_iff] at *; exact hknq
      rw [if_pos hk, List.find?_cons_of_neg (p := fun x : String × PortValue => x.1 == kq) _ hhead,
        List.find?_cons_of_neg (p := fun x : String × PortValue => x.1 == kq) _ horig]
      exact ih
    · rw [if_neg hk]
      by_cases hq : (kv.1 == kq) = true
      · rw [List.find?_cons_of_pos (p := fun x : String × PortValue => x.1 == kq) _ hq,
          List.find?_cons_of_pos (p := fun x : String × PortValue => x.1 == kq) _ hq]
      · rw [List.find?_cons_of_neg (p := fun x : String × PortValue => x.1 == kq) _ hq,
          List.find?_cons_of_neg (p := fun x : String × PortValue => x.1 == kq) _ hq]
        exact ih

theorem dictFind_dictSet_ne (d : Dict) (k kq : String) (v : PortValue)
    (hne : kq ≠ k) :
    dictFind (dictSet d k v) kq = dictFind d kq := by
  unfold dictSet dictFind
  by_cases h : d.any (fun kv => kv.1 == k) = true
  · rw [if_pos h, find?_map_overwrite_ne d k kq v hne]
  · have hknq : ((k : String) == kq) = false :=
      beq_eq_false_iff_ne.mpr (Ne.symm hne)
    rw [if_neg h, List.find?_append]
    have hsingle : ([(k, v)].find? (fun kv => kv.1 == kq)) = none := by
      rw [List.find?_cons_of_neg (p := fun x : String × PortValue => x.1 == kq) _
        (Bool.eq_false_iff.mp hknq)]
      rfl
    rw [hsingle, Option.or_none]

theorem dictUpdate_cons (d : Dict) (kv : String × PortValue) (u : Dict) :
    dictUpdate d (kv :: u) = dictUpdate (dictSet d kv.1 kv.2) u := rfl

theorem dictFind_dictUpdate_of_not_key (d u : Dict) (k : String)
    (h : ∀ kv ∈ u, kv.1 ≠ k) :
    dictFind (dictUpdate d u) k = dictFind d k := by
  induction u generalizing d with
  | nil => rfl
  | cons kv rest ih =>
    rw [dictUpdate_cons,
      ih _ (fun x hx => h x (List.mem_cons_of_mem _ hx)),
      dictFind_dictSet_ne d kv.1 k kv.2
        (Ne.symm (h kv (List.mem_cons_self _ _)))]

theorem dictFind_dictUpdate_mem (d u : Dict) (k : String) (v : PortValue)
    (hu : keysNodup u) (hmem : (k, v) ∈ u) :
    dictFind (dictUpdate d u) k = some v := by
  induction u generalizing d with
  | nil => cases hmem
  | cons kv rest ih =>
    have hu' : keysNodup rest := by
      have := hu
      simp only [keysNodup, List.map_cons, List.nodup_cons] at this
      exact this.2
    rcases List.mem_cons.mp hmem with heq | hmem'
    · subst heq
      have hnk : ∀ x ∈ rest, x.1 ≠ k := by
        intro x hx hxk
        have hkm : k ∈ rest.map Prod.fst := by
          exact hxk ▸ List.mem_map_of_mem Prod.fst hx
        have := hu
        simp only [keysNodup, List.map_cons, List.nodup_cons] at this
        exact this.1 hkm
      rw [dictUpdate_cons,
        dictFind_dictUpdate_of_not_key _ _ _ hnk,
        dictFind_dictSet_self]
    · rw [dictUpdate_cons]
      exact ih _ hu' hmem'

theorem find?_map_key (f : PortValue → PortValue) (k : String) (l : Dict) :
    ((l.map (fun kv => (kv.1, f kv.2))).find? (fun kv => kv.1 == k)) =
      (l.find? (fun kv => kv.1 == k)).map (fun kv => (kv.1, f kv.2)) := by
  induction l with
  | nil => rfl
  | cons kv rest ih => by_cases hk : kv.1 == k <;> simp [hk, ih]

theorem dictFind_resolve (m : Dict) (k : String) :
    dictFind (PortResolver.resolve m) k =
      (dictFind m k).map (PortResolver.chase m m.length) := by
  unfold PortResolver.resolve dictFind
  rw [find?_map_key]
  cases hf : m.find? (fun kv => kv.1 == k) <;> simp [hf]

theorem logUnmapped_eq (d : Dict) :
    logUnmapped d = (d.filter (fun kv => !kv.2.isNum)).map
      (fun kv => "Task has unmapped port: " ++ kv.1 ++ " => " ++ kv.2.render) := by
  induction d with
  | nil => rfl
  | cons kv rest ih =>
    obtain ⟨name, port⟩ := kv
    cases hk : port.isNum <;> simp [logUnmapped, hk, ih]

/-! ### Lemmas about the ref-validation loop -/

theorem checkRefs_ok (all rs : List Ref) (h : rs.all refWhitelisted = true) :
    checkRefs all rs = .ok () := by
  induction rs with
  | nil => rfl
  | cons r rest ih =>
    rw [List.all_cons, Bool.and_eq_true_iff] at h
    rw [checkRefs, if_pos h.1]
    exact ih h.2

theorem checkRefs_error (all rs : List Ref) (h : rs.all refWhitelisted = false) :
    checkRefs all rs = .error (.unboundRefs all) := by
  induction rs with
  | nil => simp at h
  | cons r rest ih =>
    by_cases hr : refWhitelisted r = true
    · rw [List.all_cons, hr, Bool.true_and] at h
      rw [checkRefs, if_pos hr]
      exact ih h
    · rw [checkRefs, if_neg hr]

/-! ### Reduction of the resolver in its two schema branches -/

theorem resolver_reduce_job (c : Collab) (t : AssignedTask) (s : String)
    (j : Json) (hs : c.resolve_thermos_config t.task = some s) (hne : s ≠ "")
    (hj : c.json_loads s = some j) (hinst : j.containsInstance = some false) :
    mesos_task_instance_from_assigned_task c t =
      match checkRefs (c.task_instance_from_job (c.job_json_loads s) t.instanceId).2
          (c.task_instance_from_job (c.job_json_loads s) t.instanceId).2 with
      | .ok _ => .ok (c.task_instance_from_job (c.job_json_loads s) t.instanceId).1
      | .error e => .error e := by
  unfold mesos_task_instance_from_assigned_task
  simp only [hs, hj, hinst, if_neg hne]

/-! ### Heap access lemmas -/

theorem hget_append (l : Heap) (d : Dict) (x : Nat) (hx : x < l.length) :
    hget (l ++ [d]) x = hget l x := by
  unfold hget
  rw [List.getD_eq_getElem?_getD, List.getD_eq_getElem?_getD,
    List.getElem?_append_left hx]

theorem hget_concat_self (l : Heap) (d : Dict) :
    hget (l ++ [d]) l.length = d := by
  unfold hget
  rw [List.getD_eq_getElem?_getD, List.getElem?_concat_length]
  rfl

theorem hget_set_ne (l : Heap) (d : Dict) (i x : Nat) (hix : i ≠ x) :
    hget (l.set i d) x = hget l x := by
  unfold hget
  rw [List.getD_eq_getElem?_getD, List.getD_eq_getElem?_getD,
    List.getElem?_set_ne hix]

theorem hget_set_self (l : Heap) (d : Dict) (i : Nat) (hi : i < l.length) :
    hget (l.set i d) i = d := by
  unfold hget
  rw [List.getD_eq_getElem?_getD, List.getElem?_set_eq_of_lt _ hi]
  rfl

/-! ### Claim theorems -/

/-- Claim C1: for a JobTemplate input (parsed JSON without an instance
key), resolution succeeds exactly when every ref left unresolved by the
instantiation engine is whitelisted, that is an exact match of
thermos.task_id, a subscope of thermos.ports, or an exact match of
thermos.user; when some unresolved ref matches none of the three rules,
resolution fails with the unbound-reference error. -/
theorem resolver_success_iff_refs_whitelisted (c : Collab) (t : AssignedTask)
    (s : String) (j : Json)
    (hs : c.resolve_thermos_config t.task = some s) (hne : s ≠ "")
    (hj : c.json_loads s = some j) (hinst : j.containsInstance = some false) :
    ((∃ mti, mesos_task_instance_from_assigned_task c t = .ok mti) ↔
      (c.task_instance_from_job (c.job_json_loads s) t.instanceId).2.all
        refWhitelisted = true)
    ∧ ((c.task_instance_from_job (c.job_json_loads s) t.instanceId).2.all
        refWhitelisted = false →
      ∃ reported, mesos_task_instance_from_assigned_task c t =
        .error (.unboundRefs reported)) := by
  have hred := resolver_reduce_job c t s j hs hne hj hinst
  constructor
  · constructor
    · rintro ⟨mti, hmti⟩
      by_contra hall
      rw [checkRefs_error _ _ (Bool.eq_false_iff.mpr hall)] at hred
      rw [hred] at hmti
      exact Except.noConfusion hmti
    · intro hall
      rw [checkRefs_ok _ _ hall] at hred
      exact ⟨_, hred⟩
  · intro hall
    rw [checkRefs_error _ _ hall] at hred
    exact ⟨_, hred⟩

/-- Claim C1 witness: the spec example, in which the engine leaves
exactly thermos.task_id, thermos.ports.http and thermos.user unresolved,
resolves successfully. -/
theorem resolver_success_iff_refs_whitelisted_witness :
    ∃ mti, mesos_task_instance_from_assigned_task goodRefsCollab sampleTask =
      .ok mti :=
  ((resolver_success_iff_refs_whitelisted goodRefsCollab sampleTask "jobcfg"
    (Json.obj [("task", Json.null)]) rfl (by decide) rfl rfl).1).mpr (by decide)

/-- Claim C2 counterexample: with the engine leaving thermos.task_id
(whitelisted) and foo.bar (not whitelisted) unresolved, the raised error
reports both refs — the whitelisted thermos.task_id included — and not
only the offending foo.bar, contradicting the claim that no whitelisted
ref is reported. -/
theorem resolver_error_includes_whitelisted_counterexample :
    mesos_task_instance_from_assigned_task badRefsCollab sampleTask =
      .error (.unboundRefs
        [Ref.from_address "thermos.task_id", Ref.from_address "foo.bar"])
    ∧ refWhitelisted (Ref.from_address "thermos.task_id") = true := by
  exact ⟨rfl, by decide⟩

/-- Claim C2 amended: when resolution of a JobTemplate fails because of
a non-whitelisted unresolved ref, the error reports the complete set of
refs the engine left unresolved — which contains every offending ref,
but also the whitelisted ones — rather than only the offending
subset. -/
theorem resolver_error_reports_all_refs (c : Collab) (t : AssignedTask)
    (s : String) (j : Json)
    (hs : c.resolve_thermos_config t.task = some s) (hne : s ≠ "")
    (hj : c.json_loads s = some j) (hinst : j.containsInstance = some false)
    (hbad : (c.task_instance_from_job (c.job_json_loads s) t.instanceId).2.all
      refWhitelisted = false) :
    mesos_task_instance_from_assigned_task c t =
      .error (.unboundRefs
        (c.task_instance_from_job (c.job_json_loads s) t.instanceId).2) := by
  have hred := resolver_reduce_job c t s j hs hne hj hinst
  rw [checkRefs_error _ _ hbad] at hred
  exact hred

/-- Claim C2 amended witness: concrete run of the amended statement. -/
theorem resolver_error_reports_all_refs_witness :
    mesos_task_instance_from_assigned_task badRefsCollab sampleTask =
      .error (.unboundRefs
        (badRefsCollab.task_instance_from_job
          (badRefsCollab.job_json_loads "jobcfg") sampleTask.instanceId).2) :=
  resolver_error_reports_all_refs badRefsCollab sampleTask "jobcfg"
    (Json.obj [("task", Json.null)]) rfl (by decide) rfl rfl (by decide)

/-- Claim C3: when the parsed JSON carries an instance key, the resolver
returns the directly decoded MesosTaskInstance; the equation holds for
an arbitrary collaborator assembly and an arbitrary parsed structure
with that key, so neither the instantiation engine nor the ref
validation is ever consulted, regardless of content. -/
theorem resolver_instance_branch_bypasses_validation (c : Collab)
    (t : AssignedTask) (s : String) (j : Json)
    (hs : c.resolve_thermos_config t.task = some s) (hne : s ≠ "")
    (hj : c.json_loads s = some j) (hinst : j.containsInstance = some true) :
    mesos_task_instance_from_assigned_task c t = .ok (c.mti_json_loads s) := by
  unfold mesos_task_instance_from_assigned_task
  simp only [hs, hj, hinst, if_neg hne]

/-- Claim C3 witness: a blob whose JSON carries an instance key decodes
directly. -/
theorem resolver_instance_branch_bypasses_validation_witness :
    mesos_task_instance_from_assigned_task instanceCollab sampleTask =
      .ok (instanceCollab.mti_json_loads "instcfg") :=
  resolver_instance_branch_bypasses_validation instanceCollab sampleTask
    "instcfg" (Json.obj [("instance", Json.num 0)]) rfl (by decide) rfl rfl

/-- Claim C4: overlaying the scheduler portmap onto the self-declared
announcement mapping lets the scheduler value win for every name bound
by the scheduler map, and on the spec example the final result maps http
to 8080 (the scheduler value) and https to 443. -/
theorem bind_ports_scheduler_wins (mesos_task : MesosTaskInstance)
    (portmap : Dict) (k : String) (v : PortValue)
    (hnd : keysNodup portmap) (hmem : (k, v) ∈ portmap) :
    dictFind (mergedPortmap mesos_task portmap) k = some v
    ∧ resolve_ports
        ⟨some [("http", .str "aliased_to_https"), ("https", .num 443)]⟩
        [("http", .num 8080)]
      = ([("http", .num 8080), ("https", .num 443)], []) :=
  ⟨dictFind_dictUpdate_mem _ _ _ _ hnd hmem, rfl⟩

/-- Claim C4 witness: the scheduler entry http 8080 wins over the
self-declared alias on the spec example. -/
theorem bind_ports_scheduler_wins_witness :
    dictFind (mergedPortmap
      ⟨some [("http", PortValue.str "aliased_to_https"),
        ("https", PortValue.num 443)]⟩
      [("http", PortValue.num 8080)]) "http" = some (PortValue.num 8080) :=
  (bind_ports_scheduler_wins
    ⟨some [("http", PortValue.str "aliased_to_https"),
      ("https", PortValue.num 443)]⟩
    [("http", PortValue.num 8080)] "http" (PortValue.num 8080)
    (by decide) (by decide)).1

/-- Claim C5: after alias resolution an entry is kept in the output
exactly when its final value is a concrete non-negative integer; the
dropped entries produce one warning each (the warning list is the list
of non-numeric entries, rendered); and the spec example with the
dangling alias nope yields the empty mapping with one warning. -/
theorem bind_ports_partition (mesos_task : MesosTaskInstance)
    (portmap : Dict) (kv : String × PortValue) :
    ((kv ∈ (resolve_ports mesos_task portmap).1) ↔
      kv ∈ resolvedPortmap mesos_task portmap ∧ kv.2.isNum = true)
    ∧ (resolve_ports mesos_task portmap).2 =
      ((resolvedPortmap mesos_task portmap).filter (fun e => !e.2.isNum)).map
        (fun e => "Task has unmapped port: " ++ e.1 ++ " => " ++ e.2.render)
    ∧ resolve_ports ⟨some [("http", .str "nope")]⟩ [] =
      ([], ["Task has unmapped port: http => nope"]) :=
  ⟨List.mem_filter, logUnmapped_eq (resolvedPortmap mesos_task portmap), rfl⟩

/-- Claim C6: the port binder is a total function: every entry of the
returned mapping is a concrete number, and the empty announcement with
the empty scheduler allocation yields the empty result rather than a
failure. -/
theorem bind_ports_never_fails (mesos_task : MesosTaskInstance)
    (portmap : Dict) :
    (resolve_ports mesos_task portmap).1.all (fun kv => kv.2.isNum) = true
    ∧ resolve_ports ⟨none⟩ [] = ([], []) := by
  refine ⟨?_, rfl⟩
  rw [List.all_eq_true]
  intro x hx
  exact (List.mem_filter.mp hx).2

/-- Claim C10: the port binder mutates neither of its inputs: every dict
object live before the call — in particular the scheduler portmap
argument — holds the same value afterwards, because the overlay is
performed on the freshly allocated copy of the announcement mapping; and
the value it returns agrees with the functional embedding applied to the
value of the portmap argument. -/
theorem bind_ports_preserves_inputs (h : Heap)
    (mesos_task : MesosTaskInstance) (portmapAddr a : Nat) :
    (a < h.length →
      hget (resolve_ports_heap h mesos_task portmapAddr).1 a = hget h a)
    ∧ (portmapAddr < h.length →
      (resolve_ports_heap h mesos_task portmapAddr).2 =
        (resolve_ports mesos_task (hget h portmapAddr)).1) := by
  have hlen1 : ((h ++ [taskPortmapBase mesos_task]).set h.length
      (dictUpdate (hget (h ++ [taskPortmapBase mesos_task]) h.length)
        (hget (h ++ [taskPortmapBase mesos_task]) portmapAddr))).length
      = h.length + 1 := by
    rw [List.length_set, List.length_append]
    rfl
  constructor
  · intro ha
    simp only [resolve_ports_heap, halloc, hset]
    rw [hget_append _ _ _ (by rw [hlen1]; omega),
      hget_set_ne _ _ _ _ (Nat.ne_of_lt ha).symm,
      hget_append _ _ _ ha]
  · intro hp
    simp only [resolve_ports_heap, halloc, hset]
    rw [hget_concat_self,
      hget_set_self _ _ _
        (by simp only [List.length_append, List.length_cons,
          List.length_nil]; omega),
      hget_concat_self,
      hget_append _ _ _ hp]
    rfl

/-- Claim C10 witness: a concrete one-object heap is untouched by the
call. -/
theorem bind_ports_preserves_inputs_witness :
    hget (resolve_ports_heap [[("x", PortValue.num 1)]] ⟨none⟩ 0).1 0 =
      hget [[("x", PortValue.num 1)]] 0 :=
  (bind_ports_preserves_inputs [[("x", PortValue.num 1)]] ⟨none⟩ 0 0).1
    (by decide)

/-- Claim C7: when template extraction yields an absent or empty value,
the resolver fails with the missing-config error; the equation holds for
an arbitrary collaborator assembly, so no JSON parsing and no schema
disambiguation can influence it, and no result is returned. -/
theorem resolver_missing_config (c : Collab) (t : AssignedTask)
    (h : c.resolve_thermos_config t.task = none ∨
      c.resolve_thermos_config t.task = some "") :
    mesos_task_instance_from_assigned_task c t = .error .missingConfig := by
  unfold mesos_task_instance_from_assigned_task
  rcases h with h | h
  · rw [h]
  · rw [h]
    rfl

/-- Claim C7 witness: an assignment with no embedded template is
rejected. -/
theorem resolver_missing_config_witness :
    mesos_task_instance_from_assigned_task missingCollab sampleTask =
      .error .missingConfig :=
  resolver_missing_config missingCollab sampleTask (Or.inl rfl)

/-- Claim C8: when the extracted blob is non-empty but JSON parsing
fails, the resolver fails with the malformed-config error — no other
outcome, no partial result. -/
theorem resolver_malformed_config (c : Collab) (t : AssignedTask)
    (s : String)
    (hs : c.resolve_thermos_config t.task = some s) (hne : s ≠ "")
    (hp : c.json_loads s = none) :
    mesos_task_instance_from_assigned_task c t = .error .malformedConfig := by
  unfold mesos_task_instance_from_assigned_task
  simp only [hs, hp, if_neg hne]

/-- Claim C8 witness: a non-JSON blob is rejected as malformed. -/
theorem resolver_malformed_config_witness :
    mesos_task_instance_from_assigned_task malformedCollab sampleTask =
      .error .malformedConfig :=
  resolver_malformed_config malformedCollab sampleTask "not json"
    rfl (by decide) rfl

/-- Claim C9: the decoder fails with the decode error exactly on the
inputs the thrift deserializer rejects — premature end-of-input
(EOFError) or malformed and schema-violating bytes (TException) — and
returns no partial record then; on well-formed bytes it returns the
populated record the deserializer produced. -/
theorem decoder_rejects_bad_bytes
    (thrift_deserialize : List Nat → ThriftResult) (data : List Nat) :
    ((thrift_deserialize data = .eofError ∨
        thrift_deserialize data = .texception) →
      assigned_task_from_mesos_task thrift_deserialize data =
        .error .couldNotDeserialize)
    ∧ (∀ t, thrift_deserialize data = .ok t →
      assigned_task_from_mesos_task thrift_deserialize data = .ok t) := by
  unfold assigned_task_from_mesos_task
  constructor
  · rintro (h | h) <;> rw [h]
  · intro t h
    rw [h]

/-- Claim C9 witness: the truncated (empty) payload is rejected. -/
theorem decoder_rejects_bad_bytes_witness :
    assigned_task_from_mesos_task sampleThrift [] =
      .error .couldNotDeserialize :=
  (decoder_rejects_bad_bytes sampleThrift []).1 (Or.inl rfl)

end TaskInfo
